import Mathlib

/-!
# ShortenerClient: the request/response logic of `frontend/src/App.js`

A shallow embedding of the React component `App`:

* `JsVal` is the JavaScript value universe the component handles (parsed JSON
  payloads, plus `undefined`);
* `ViewState` is the seven `useState` cells of the component;
* every handler (`fetchUrls`, `shortenUrl`, `fetchAnalytics`, the `onChange` and
  `onClick` arrows) is a function on a `Run`: the view state together with the
  `fetch` calls issued and the `console.error` lines written while it runs;
* an `async` handler is cut at its `await`: the part before it is the handler
  itself, the part after it is the `...Resume` function, which receives the
  `FetchOutcome` of the awaited request and the view state current at that time
  (the continuations only call state setters, they never read a state cell);
* `Client` and `step` put the handlers together into the event loop of the page.

Applying a `...Resume` function to the run its handler returned, as in
`shortenUrlResume o (shortenUrl (Run.start s))`, is one invocation of the
handler with nothing else happening while its request is outstanding; the run
then carries every request the invocation issued, in order. Interleavings with
other events are the subject of `step`.
-/

namespace ShortenerClient

/-! ## JavaScript values -/

/-- JavaScript values reaching the component. Numbers are the parsed value;
only integers are represented (a non-integer behaves like a non-zero integer in
everything the component does with it, which is the truthiness test). An object
is its own enumerable properties, each key occurring once, in insertion order. -/
inductive JsVal where
  | undefined : JsVal
  | null : JsVal
  | bool (b : Bool) : JsVal
  | num (n : Int) : JsVal
  | str (s : String) : JsVal
  | arr (xs : List JsVal) : JsVal
  | obj (kvs : List (String × JsVal)) : JsVal

/-- Errors a handler can throw or a promise can reject with. -/
inductive JsError where
  /-- The promise of `fetch` rejected: no response was received (`cause` is the text of the browser) -/
  | network (cause : String) : JsError
  /-- The promise of `response.json()` rejected: the body is not JSON -/
  | syntaxError : JsError
  /-- a property was read from `null` or `undefined` -/
  | typeError : JsError

/-- JavaScript `ToBoolean`. -/
def JsVal.truthy : JsVal → Bool
  | .undefined => false
  | .null => false
  | .bool b => b
  | .num n => n != 0
  | .str s => s != ""
  | .arr _ => true
  | .obj _ => true

/-- The operator `a || b`. -/
def JsVal.or (a b : JsVal) : JsVal :=
  if a.truthy then a else b

/-- Own-property lookup in an object's property list. -/
def lookupProp (k : String) : List (String × JsVal) → JsVal
  | [] => .undefined
  | (k', v) :: rest => if k' = k then v else lookupProp k rest

/-- Property read `v.k`, for the property names the component reads from a
payload (`error`, `urls`): none of them is defined on a primitive wrapper or on
`Array.prototype`, so only an object can answer with a value; reading from
`null` or `undefined` throws a `TypeError`. -/
def JsVal.getProp (v : JsVal) (k : String) : Except JsError JsVal :=
  match v with
  | .undefined => .error .typeError
  | .null => .error .typeError
  | .obj kvs => .ok (lookupProp k kvs)
  | _ => .ok .undefined

/-- Properties kept by `JSON.stringify` when it serialises an object: a
property whose value is `undefined` is left out. -/
def stringifyProps : List (String × JsVal) → List (String × JsVal)
  | [] => []
  | (k, v) :: rest =>
    match v with
    | .undefined => stringifyProps rest
    | _ => (k, v) :: stringifyProps rest

/-- The call `JSON.stringify(o)` for an object literal `o` with the given
properties, whose values are strings or `undefined` (the only call in the
component). The text produced is represented by the JSON document it denotes. -/
def JSON_stringify (props : List (String × JsVal)) : JsVal :=
  .obj (stringifyProps props)

/-! ## View state, requests and handler runs -/

/-- The `useState` cells of `App`. `url` and `customAlias` only ever receive the
text of an input field or `''`; the other cells receive payload values. -/
structure ViewState where
  url : String
  customAlias : String
  shortUrl : JsVal
  loading : Bool
  error : JsVal
  urls : JsVal
  selectedAnalytics : JsVal

/-- The initial values passed to `useState`. -/
def ViewState.initial : ViewState where
  url := ""
  customAlias := ""
  shortUrl := .null
  loading := false
  error := .str ""
  urls := .arr []
  selectedAnalytics := .null

/-- The three `fetch` calls of the component, against `API_BASE`. -/
inductive Request where
  /-- The request `GET /api/urls` -/
  | getUrls : Request
  /-- The request `POST /api/shorten` with the given JSON body -/
  | postShorten (body : JsVal) : Request
  /-- The request `GET /api/analytics/$shortCode` -/
  | getAnalytics (shortCode : JsVal) : Request

/-- How an awaited `fetch` followed by `response.json()` ends. -/
inductive FetchOutcome where
  /-- The promise of `fetch` rejects: there is no response -/
  | rejected (cause : String) : FetchOutcome
  /-- The promise of `fetch` resolves with a response whose `ok` flag is `ok`; `body` is the
  value `response.json()` resolves with, `none` when it rejects -/
  | response (ok : Bool) (body : Option JsVal) : FetchOutcome

/-- A handler run up to its next suspension: the view state it leaves, the
requests it has issued and the lines it has written with `console.error`. -/
structure Run where
  view : ViewState
  fetches : List Request
  console : List String

/-- A run that has done nothing yet. -/
def Run.start (s : ViewState) : Run where
  view := s
  fetches := []
  console := []

def setUrl (v : String) (r : Run) : Run :=
  { r with view := { r.view with url := v } }

def setCustomAlias (v : String) (r : Run) : Run :=
  { r with view := { r.view with customAlias := v } }

def setShortUrl (v : JsVal) (r : Run) : Run :=
  { r with view := { r.view with shortUrl := v } }

def setLoading (v : Bool) (r : Run) : Run :=
  { r with view := { r.view with loading := v } }

def setError (v : JsVal) (r : Run) : Run :=
  { r with view := { r.view with error := v } }

def setUrls (v : JsVal) (r : Run) : Run :=
  { r with view := { r.view with urls := v } }

def setSelectedAnalytics (v : JsVal) (r : Run) : Run :=
  { r with view := { r.view with selectedAnalytics := v } }

/-- A call of `fetch`: the request goes out, the caller suspends on it. -/
def fetch (q : Request) (r : Run) : Run :=
  { r with fetches := r.fetches ++ [q] }

/-- A call of `console.error`. -/
def consoleError (msg : String) (r : Run) : Run :=
  { r with console := r.console ++ [msg] }

/-- The value both `await`s of a handler deliver (`await fetch(...)`, then
`await response.json()`), or the error the first failing one throws. -/
def FetchOutcome.awaitJson : FetchOutcome → Except JsError (Bool × JsVal)
  | .rejected cause => .error (.network cause)
  | .response _ none => .error .syntaxError
  | .response ok (some data) => .ok (ok, data)

/-! ## The handlers -/

/-- The handler `fetchUrls`, up to `await fetch(...)`. -/
def fetchUrls (r : Run) : Run :=
  fetch .getUrls r

/-- The `try` block of `fetchUrls` after the request settled. Its only setter
call is its last statement, so a throw leaves the run as it was on entry. -/
def fetchUrlsTry (o : FetchOutcome) (r : Run) : Except JsError Run :=
  match o.awaitJson with
  | .error e => .error e
  | .ok (_, data) =>
    match data.getProp "urls" with
    | .error e => .error e
    | .ok u => .ok (setUrls (u.or (.arr [])) r)

/-- The handler `fetchUrls` from the point where its request settles. -/
def fetchUrlsResume (o : FetchOutcome) (r : Run) : Run :=
  match fetchUrlsTry o r with
  | .ok r' => r'
  | .error _ => consoleError "Failed to fetch URLs:" r

/-- The body of the create request: `JSON.stringify` of
`{ url: url, custom_alias: customAlias || undefined }`. -/
def shortenBody (s : ViewState) : JsVal :=
  JSON_stringify
    [("url", .str s.url),
     ("custom_alias", (JsVal.str s.customAlias).or .undefined)]

/-- The handler `shortenUrl`, up to `await fetch(...)`. The handler closes over the `url`
and `customAlias` of the render it was created in, which is the view state the
run starts from. -/
def shortenUrl (r : Run) : Run :=
  if !(JsVal.str r.view.url).truthy then r
  else
    fetch (.postShorten (shortenBody r.view))
      (setShortUrl .null (setError (.str "") (setLoading true r)))

/-- The `try` block of `shortenUrl` after the request settled. Every statement
that can throw comes before the first setter call of its branch, so a throw
leaves the run as it was on entry. -/
def shortenUrlTry (o : FetchOutcome) (r : Run) : Except JsError Run :=
  match o.awaitJson with
  | .error e => .error e
  | .ok (ok, data) =>
    if ok then
      .ok (fetchUrls (setCustomAlias "" (setUrl "" (setShortUrl data r))))
    else
      match data.getProp "error" with
      | .error e => .error e
      | .ok e => .ok (setError (e.or (.str "Failed to shorten URL")) r)

/-- The text stored by the `catch` block of `shortenUrl`. -/
def connectErrorMessage : String :=
  "Failed to connect to server. Make sure Flask is running on port 5000."

/-- The handler `shortenUrl` from the point where its request settles: `try`, `catch`,
`finally`. -/
def shortenUrlResume (o : FetchOutcome) (r : Run) : Run :=
  setLoading false
    (match shortenUrlTry o r with
     | .ok r' => r'
     | .error _ => setError (.str connectErrorMessage) r)

/-- The call `fetchAnalytics(shortCode)`, up to `await fetch(...)`. -/
def fetchAnalytics (shortCode : JsVal) (r : Run) : Run :=
  fetch (.getAnalytics shortCode) r

/-- The `try` block of `fetchAnalytics` after the request settled. -/
def fetchAnalyticsTry (o : FetchOutcome) (r : Run) : Except JsError Run :=
  match o.awaitJson with
  | .error e => .error e
  | .ok (_, data) => .ok (setSelectedAnalytics data r)

/-- The handler `fetchAnalytics` from the point where its request settles. -/
def fetchAnalyticsResume (o : FetchOutcome) (r : Run) : Run :=
  match fetchAnalyticsTry o r with
  | .ok r' => r'
  | .error _ => consoleError "Failed to fetch analytics:" r

/-- The `onClick` arrow of the modal overlay and of its close button:
`setSelectedAnalytics(null)`. -/
def dismissAnalytics (r : Run) : Run :=
  setSelectedAnalytics .null r

/-- The submit button carries `disabled=(loading || !url)`. -/
def submitDisabled (s : ViewState) : Bool :=
  s.loading || !(JsVal.str s.url).truthy

/-- The analytics modal is rendered under `selectedAnalytics && ...`. -/
def modalShown (s : ViewState) : Bool :=
  s.selectedAnalytics.truthy

/-- Whether an object value has the own property `k`. -/
def JsVal.hasOwn (k : String) : JsVal → Bool
  | .obj kvs => kvs.any (fun kv => kv.1 == k)
  | _ => false

/-! ## The page as an event loop -/

/-- The running page: the rendered view state, the requests that have been
issued and have not settled yet (oldest first), and the console. -/
structure Client where
  view : ViewState
  pending : List Request
  console : List String

/-- Runs a handler on the current view: the view it leaves is rendered, the
requests it issued become outstanding, its console lines are appended. -/
def Client.run (c : Client) (h : Run → Run) : Client :=
  { view := (h (Run.start c.view)).view
    pending := c.pending ++ (h (Run.start c.view)).fetches
    console := c.console ++ (h (Run.start c.view)).console }

/-- The page after mounting: initial state, and the effect
`useEffect(() => fetchUrls(), [])` has run once. -/
def Client.initial : Client :=
  Client.run { view := ViewState.initial, pending := [], console := [] } fetchUrls

/-- The continuation waiting on a request: each kind of request is issued by
exactly one handler. -/
def Request.resume : Request → FetchOutcome → Run → Run
  | .getUrls => fetchUrlsResume
  | .postShorten _ => shortenUrlResume
  | .getAnalytics _ => fetchAnalyticsResume

/-- What can happen to the page. `clickAnalytics` is offered for every short
code, not only for those of the listed items. -/
inductive Event where
  /-- typing in the URL field: `onChange` calls `setUrl(e.target.value)` -/
  | changeUrl (text : String) : Event
  /-- typing in the alias field: `onChange` calls `setCustomAlias(e.target.value)` -/
  | changeCustomAlias (text : String) : Event
  /-- a click on the submit button, which the browser drops when the button is
  disabled -/
  | clickShorten : Event
  /-- a click on the `Analytics` button of an item -/
  | clickAnalytics (shortCode : JsVal) : Event
  /-- a click on the modal overlay or on its close button, which exist only
  while the modal is rendered -/
  | clickDismiss : Event
  /-- the `i`-th outstanding request settles with outcome `o` -/
  | settle (i : Nat) (o : FetchOutcome) : Event

/-- One turn of the event loop. -/
def step (c : Client) : Event → Client
  | .changeUrl text => c.run (setUrl text)
  | .changeCustomAlias text => c.run (setCustomAlias text)
  | .clickShorten => if submitDisabled c.view then c else c.run shortenUrl
  | .clickAnalytics shortCode => c.run (fetchAnalytics shortCode)
  | .clickDismiss => if modalShown c.view then c.run dismissAnalytics else c
  | .settle i o =>
    match c.pending[i]? with
    | none => c
    | some q => Client.run { c with pending := c.pending.eraseIdx i } (q.resume o)

/-- The page after a sequence of events. -/
def runEvents (c : Client) (es : List Event) : Client :=
  es.foldl step c

/-- The states the page can be in. -/
def Reachable (c : Client) : Prop :=
  ∃ es : List Event, runEvents Client.initial es = c

/-- Whether a request is a create request. -/
def Request.isCreate : Request → Bool
  | .postShorten _ => true
  | _ => false

/-- The number of create requests outstanding. -/
def createOutstanding (c : Client) : Nat :=
  c.pending.countP Request.isCreate

/-- The phases of a submission, as the submit button shows them
(`loading ? 'Shortening...' : 'Shorten URL'`). -/
inductive Phase where
  | Idle : Phase
  | Busy : Phase

/-- The phase the page is in. -/
def phase (c : Client) : Phase :=
  if c.view.loading then .Busy else .Idle

/-- The three ways the continuation of `shortenUrl` can go. -/
inductive Settlement where
  /-- the `if (response.ok)` branch -/
  | Success : Settlement
  /-- the `else` branch -/
  | Rejected : Settlement
  /-- the `catch` block -/
  | Unreachable : Settlement

/-- Which way the continuation of `shortenUrl` goes on outcome `o`. -/
def settlement (o : FetchOutcome) : Settlement :=
  match o.awaitJson with
  | .error _ => .Unreachable
  | .ok (ok, data) =>
    if ok then .Success
    else
      match data.getProp "error" with
      | .error _ => .Unreachable
      | .ok _ => .Rejected

/-- The invariant of the event loop: a create request is outstanding exactly
while `loading` is set, and then there is one. -/
def BusyInvariant (c : Client) : Prop :=
  createOutstanding c = if c.view.loading then 1 else 0

/-! ## Submission: `shortenUrl` -/

theorem truthy_str (t : String) : (JsVal.str t).truthy = decide (t ≠ "") := by
  by_cases h : t = "" <;> simp [JsVal.truthy, bne, h]

/-- C1: with an empty draft url, `shortenUrl` issues no request, writes nothing
and leaves every cell of the view state as it was. -/
theorem shortenUrl_empty_url_noop (s : ViewState) (h : s.url = "") :
    shortenUrl (Run.start s) = Run.start s ∧
      (shortenUrl (Run.start s)).fetches = [] ∧
      (shortenUrl (Run.start s)).view = s := by
  simp [shortenUrl, truthy_str, Run.start, h]

theorem shortenUrl_empty_url_noop_witness :
    (shortenUrl (Run.start { ViewState.initial with customAlias := "mine" })
        = Run.start { ViewState.initial with customAlias := "mine" }) ∧
      (shortenUrl (Run.start { ViewState.initial with customAlias := "mine" })).fetches = [] ∧
      (shortenUrl (Run.start { ViewState.initial with customAlias := "mine" })).view
        = { ViewState.initial with customAlias := "mine" } :=
  shortenUrl_empty_url_noop { ViewState.initial with customAlias := "mine" } rfl

/-- C2: a submission with a non-empty draft url whose response indicates
failure and carries a payload with a non-empty string `error` ends with the
result unset, that string as error text, the draft untouched and `loading`
false. -/
theorem shortenUrl_failure_payload (s : ViewState) (data : JsVal) (e : String)
    (hurl : s.url ≠ "") (he : e ≠ "")
    (hdata : data.getProp "error" = .ok (.str e)) :
    (shortenUrlResume (.response false (some data)) (shortenUrl (Run.start s))).view.shortUrl
        = .null ∧
      (shortenUrlResume (.response false (some data)) (shortenUrl (Run.start s))).view.error
        = .str e ∧
      (shortenUrlResume (.response false (some data)) (shortenUrl (Run.start s))).view.url
        = s.url ∧
      (shortenUrlResume (.response false (some data)) (shortenUrl (Run.start s))).view.customAlias
        = s.customAlias ∧
      (shortenUrlResume (.response false (some data)) (shortenUrl (Run.start s))).view.loading
        = false := by
  simp [shortenUrlResume, shortenUrlTry, FetchOutcome.awaitJson, hdata, shortenUrl,
    truthy_str, hurl, he, JsVal.or, setLoading, setError, setShortUrl, fetch, Run.start]

theorem shortenUrl_failure_payload_witness :
    (shortenUrlResume (.response false (some (.obj [("error", .str "alias taken")])))
        (shortenUrl (Run.start
          { ViewState.initial with url := "https://example.com", customAlias := "docs" }))).view.shortUrl
        = .null ∧
      (shortenUrlResume (.response false (some (.obj [("error", .str "alias taken")])))
        (shortenUrl (Run.start
          { ViewState.initial with url := "https://example.com", customAlias := "docs" }))).view.error
        = .str "alias taken" ∧
      (shortenUrlResume (.response false (some (.obj [("error", .str "alias taken")])))
        (shortenUrl (Run.start
          { ViewState.initial with url := "https://example.com", customAlias := "docs" }))).view.url
        = "https://example.com" ∧
      (shortenUrlResume (.response false (some (.obj [("error", .str "alias taken")])))
        (shortenUrl (Run.start
          { ViewState.initial with url := "https://example.com", customAlias := "docs" }))).view.customAlias
        = "docs" ∧
      (shortenUrlResume (.response false (some (.obj [("error", .str "alias taken")])))
        (shortenUrl (Run.start
          { ViewState.initial with url := "https://example.com", customAlias := "docs" }))).view.loading
        = false :=
  shortenUrl_failure_payload
    { ViewState.initial with url := "https://example.com", customAlias := "docs" }
    (.obj [("error", .str "alias taken")]) "alias taken" (by decide) (by decide) rfl

/-- C3: a submission with a non-empty draft url whose response is successful
with payload `d` ends with the result equal to `d`, both draft fields empty, no
error text and `loading` false; the handler has issued the create request and
then exactly one list request. -/
theorem shortenUrl_success (s : ViewState) (d : JsVal) (hurl : s.url ≠ "") :
    (shortenUrlResume (.response true (some d)) (shortenUrl (Run.start s))).view.shortUrl = d ∧
      (shortenUrlResume (.response true (some d)) (shortenUrl (Run.start s))).view.url = "" ∧
      (shortenUrlResume (.response true (some d)) (shortenUrl (Run.start s))).view.customAlias
        = "" ∧
      (shortenUrlResume (.response true (some d)) (shortenUrl (Run.start s))).view.error
        = .str "" ∧
      (shortenUrlResume (.response true (some d)) (shortenUrl (Run.start s))).view.loading
        = false ∧
      (shortenUrlResume (.response true (some d)) (shortenUrl (Run.start s))).fetches
        = [.postShorten (shortenBody s), .getUrls] := by
  simp [shortenUrlResume, shortenUrlTry, FetchOutcome.awaitJson, shortenUrl, fetchUrls,
    truthy_str, hurl, setLoading, setError, setShortUrl, setUrl, setCustomAlias, fetch,
    Run.start]

theorem shortenUrl_success_witness :
    (shortenUrlResume
        (.response true (some (.obj [("short_url", .str "http://localhost:5000/xy12"),
          ("short_code", .str "xy12")])))
        (shortenUrl (Run.start
          { ViewState.initial with url := "https://example.com/a/b", customAlias := "" }))).view.shortUrl
        = .obj [("short_url", .str "http://localhost:5000/xy12"), ("short_code", .str "xy12")] :=
  (shortenUrl_success
    { ViewState.initial with url := "https://example.com/a/b", customAlias := "" }
    (.obj [("short_url", .str "http://localhost:5000/xy12"), ("short_code", .str "xy12")])
    (by decide)).1

/-- C4: a submission with a non-empty draft url whose request gets no response
ends with the fixed text `Failed to connect to server. Make sure Flask is running
on port 5000.` as error, whatever the draft and the cause, with the result
unset, the draft untouched and `loading` false. -/
theorem shortenUrl_no_response (s : ViewState) (cause : String) (hurl : s.url ≠ "") :
    (shortenUrlResume (.rejected cause) (shortenUrl (Run.start s))).view.error
        = .str "Failed to connect to server. Make sure Flask is running on port 5000." ∧
      (shortenUrlResume (.rejected cause) (shortenUrl (Run.start s))).view.shortUrl = .null ∧
      (shortenUrlResume (.rejected cause) (shortenUrl (Run.start s))).view.url = s.url ∧
      (shortenUrlResume (.rejected cause) (shortenUrl (Run.start s))).view.customAlias
        = s.customAlias ∧
      (shortenUrlResume (.rejected cause) (shortenUrl (Run.start s))).view.loading = false := by
  simp [shortenUrlResume, shortenUrlTry, FetchOutcome.awaitJson, shortenUrl, truthy_str, hurl,
    setLoading, setError, setShortUrl, fetch, Run.start, connectErrorMessage]

theorem shortenUrl_no_response_witness :
    (shortenUrlResume (.rejected "TypeError: Failed to fetch")
        (shortenUrl (Run.start
          { ViewState.initial with url := "https://example.com", customAlias := "docs" }))).view.error
      = .str "Failed to connect to server. Make sure Flask is running on port 5000." :=
  (shortenUrl_no_response
    { ViewState.initial with url := "https://example.com", customAlias := "docs" }
    "TypeError: Failed to fetch" (by decide)).1

/-- C8: with a non-empty draft url, `shortenUrl` issues exactly one request, the
create request, whose body is the object with the single property `url` when the
draft alias is empty, and the object with `url` and `custom_alias` otherwise:
the body has a `custom_alias` property exactly when the alias is non-empty. -/
theorem shortenUrl_request_body (s : ViewState) (hurl : s.url ≠ "") :
    (shortenUrl (Run.start s)).fetches = [.postShorten (shortenBody s)] ∧
      (s.customAlias = "" → shortenBody s = .obj [("url", .str s.url)]) ∧
      (s.customAlias ≠ "" →
        shortenBody s = .obj [("url", .str s.url), ("custom_alias", .str s.customAlias)]) ∧
      ((shortenBody s).hasOwn "custom_alias" = true ↔ s.customAlias ≠ "") ∧
      (shortenBody s).getProp "url" = .ok (.str s.url) := by
  refine ⟨?_, ?_, ?_, ?_, ?_⟩
  · simp [shortenUrl, truthy_str, hurl, setLoading, setError, setShortUrl, fetch, Run.start]
  · intro h
    simp [shortenBody, JSON_stringify, stringifyProps, JsVal.or, truthy_str, h]
  · intro h
    simp [shortenBody, JSON_stringify, stringifyProps, JsVal.or, truthy_str, h]
  · by_cases h : s.customAlias = "" <;>
      simp [shortenBody, JSON_stringify, stringifyProps, JsVal.or, truthy_str, h, JsVal.hasOwn]
  · simp [shortenBody, JSON_stringify, stringifyProps, JsVal.getProp, lookupProp]

theorem shortenUrl_request_body_witness :
    (shortenUrl (Run.start
        { ViewState.initial with url := "https://example.com/a/b", customAlias := "" })).fetches
      = [.postShorten (.obj [("url", .str "https://example.com/a/b")])] :=
  (shortenUrl_request_body
    { ViewState.initial with url := "https://example.com/a/b", customAlias := "" }
    (by decide)).1

/-! ## One submission in flight -/

/-- The continuation of `shortenUrl` clears `loading` on every outcome and from
every state. -/
theorem shortenUrlResume_loading (o : FetchOutcome) (r : Run) :
    (shortenUrlResume o r).view.loading = false := by
  simp [shortenUrlResume, setLoading]

/-- The continuation of `shortenUrl` issues no create request. -/
theorem shortenUrlResume_fetches (o : FetchOutcome) (s : ViewState) :
    (shortenUrlResume o (Run.start s)).fetches.countP Request.isCreate = 0 := by
  unfold shortenUrlResume shortenUrlTry
  rcases o with cause | ⟨ok, _ | data⟩
  · simp [FetchOutcome.awaitJson, setLoading, setError, Run.start]
  · simp [FetchOutcome.awaitJson, setLoading, setError, Run.start]
  · cases ok
    · cases hg : data.getProp "error" <;>
        simp [FetchOutcome.awaitJson, hg, setLoading, setError, Run.start]
    · simp [FetchOutcome.awaitJson, setLoading, setShortUrl, setUrl, setCustomAlias, fetchUrls,
        fetch, Run.start, Request.isCreate]

/-- The continuation of `fetchUrls` touches neither `loading` nor the network. -/
theorem fetchUrlsResume_frame (o : FetchOutcome) (s : ViewState) :
    (fetchUrlsResume o (Run.start s)).view.loading = s.loading ∧
      (fetchUrlsResume o (Run.start s)).fetches = [] := by
  unfold fetchUrlsResume fetchUrlsTry
  rcases o with cause | ⟨ok, _ | data⟩
  · simp [FetchOutcome.awaitJson, consoleError, Run.start]
  · simp [FetchOutcome.awaitJson, consoleError, Run.start]
  · cases hg : data.getProp "urls" <;>
      simp [FetchOutcome.awaitJson, hg, consoleError, setUrls, Run.start]

/-- The continuation of `fetchAnalytics` touches neither `loading` nor the
network. -/
theorem fetchAnalyticsResume_frame (o : FetchOutcome) (s : ViewState) :
    (fetchAnalyticsResume o (Run.start s)).view.loading = s.loading ∧
      (fetchAnalyticsResume o (Run.start s)).fetches = [] := by
  unfold fetchAnalyticsResume fetchAnalyticsTry
  rcases o with cause | ⟨ok, _ | data⟩ <;>
    simp [FetchOutcome.awaitJson, consoleError, setSelectedAnalytics, Run.start]

/-- Removing the request at position `i` lowers the count of create requests by
one when that request is a create request, and not at all otherwise. -/
theorem countP_isCreate_eraseIdx (l : List Request) (i : Nat) (q : Request)
    (h : l[i]? = some q) :
    l.countP Request.isCreate
      = (l.eraseIdx i).countP Request.isCreate + (if q.isCreate then 1 else 0) := by
  induction l generalizing i with
  | nil => simp at h
  | cons a t ih =>
    cases i with
    | zero =>
      simp at h
      subst h
      simp [List.countP_cons]
    | succ j =>
      simp at h
      have := ih j h
      simp [List.countP_cons, this]
      omega

theorem isCreate_postShorten (body : JsVal) : (Request.postShorten body).isCreate = true :=
  rfl

theorem isCreate_getUrls : Request.getUrls.isCreate = false :=
  rfl

theorem isCreate_getAnalytics (shortCode : JsVal) :
    (Request.getAnalytics shortCode).isCreate = false :=
  rfl

theorem busyInvariant_initial : BusyInvariant Client.initial := by
  simp [BusyInvariant, createOutstanding, Client.initial, Client.run, fetchUrls, fetch,
    Run.start, ViewState.initial, Request.isCreate]

theorem busyInvariant_step (c : Client) (e : Event) (h : BusyInvariant c) :
    BusyInvariant (step c e) := by
  unfold BusyInvariant createOutstanding at *
  cases e with
  | changeUrl text => simpa [step, Client.run, setUrl, Run.start] using h
  | changeCustomAlias text => simpa [step, Client.run, setCustomAlias, Run.start] using h
  | clickShorten =>
    by_cases hd : submitDisabled c.view = true
    · simpa [step, hd] using h
    · have hl : c.view.loading = false := by
        cases hc : c.view.loading <;> simp_all [submitDisabled]
      have hu : (JsVal.str c.view.url).truthy = true := by
        cases hc : (JsVal.str c.view.url).truthy <;> simp_all [submitDisabled]
      have h0 : List.countP Request.isCreate c.pending = 0 := by rw [h, hl]; rfl
      simp [step, hd, Client.run, shortenUrl, hu, fetch, setShortUrl, setError, setLoading,
        Run.start, List.countP_append, h0, isCreate_postShorten]
  | clickAnalytics shortCode =>
    simpa [step, Client.run, fetchAnalytics, fetch, Run.start, List.countP_append,
      isCreate_getAnalytics] using h
  | clickDismiss =>
    by_cases hm : modalShown c.view = true
    · simpa [step, hm, Client.run, dismissAnalytics, setSelectedAnalytics, Run.start] using h
    · simpa [step, hm] using h
  | settle i o =>
    cases hq : c.pending[i]? with
    | none => simpa [step, hq] using h
    | some q =>
      have hcount := countP_isCreate_eraseIdx c.pending i q hq
      cases q with
      | getUrls =>
        have hf := fetchUrlsResume_frame o c.view
        simp [Request.isCreate] at hcount
        simp [step, hq, Client.run, Request.resume, hf.1, hf.2, ← hcount, h]
      | postShorten body =>
        have hl := shortenUrlResume_loading o (Run.start c.view)
        have hf := shortenUrlResume_fetches o c.view
        simp [Request.isCreate] at hcount
        have hone : List.countP Request.isCreate (c.pending.eraseIdx i) = 0 := by
          split at h <;> omega
        simp [step, hq, Client.run, Request.resume, hl, List.countP_append, hf, hone]
      | getAnalytics shortCode =>
        have hf := fetchAnalyticsResume_frame o c.view
        simp [Request.isCreate] at hcount
        simp [step, hq, Client.run, Request.resume, hf.1, hf.2, ← hcount, h]

theorem busyInvariant_runEvents (es : List Event) (c : Client) (h : BusyInvariant c) :
    BusyInvariant (runEvents c es) := by
  induction es generalizing c with
  | nil => simpa [runEvents] using h
  | cons e es ih => exact ih (step c e) (busyInvariant_step c e h)

theorem busyInvariant_of_reachable (c : Client) (h : Reachable c) : BusyInvariant c := by
  obtain ⟨es, rfl⟩ := h
  exact busyInvariant_runEvents es _ busyInvariant_initial

/-- An outstanding create request is counted. -/
theorem createOutstanding_pos (c : Client) (i : Nat) (body : JsVal)
    (h : c.pending[i]? = some (.postShorten body)) : 0 < createOutstanding c := by
  have := countP_isCreate_eraseIdx c.pending i _ h
  simp [isCreate_postShorten] at this
  unfold createOutstanding
  omega

/-- What each way of the continuation of `shortenUrl` leaves in the view. -/
theorem shortenUrlResume_settlement (o : FetchOutcome) (s : ViewState) :
    (settlement o = .Success →
        ∃ d, o = .response true (some d) ∧
          (shortenUrlResume o (Run.start s)).view.shortUrl = d) ∧
      (settlement o = .Rejected →
        ∃ d e, o = .response false (some d) ∧ d.getProp "error" = .ok e ∧
          (shortenUrlResume o (Run.start s)).view.error = e.or (.str "Failed to shorten URL")) ∧
      (settlement o = .Unreachable →
        (shortenUrlResume o (Run.start s)).view.error = .str connectErrorMessage) := by
  unfold shortenUrlResume shortenUrlTry settlement
  rcases o with cause | ⟨ok, _ | data⟩
  · simp [FetchOutcome.awaitJson, setLoading, setError, Run.start]
  · simp [FetchOutcome.awaitJson, setLoading, setError, Run.start]
  · cases ok
    · cases hg : data.getProp "error" <;>
        simp [FetchOutcome.awaitJson, hg, setLoading, setError, Run.start]
    · simp [FetchOutcome.awaitJson, setLoading, setShortUrl, setUrl, setCustomAlias, fetchUrls,
        fetch, Run.start]

/-- The view after a create request settles is the one the continuation of
`shortenUrl` leaves. -/
theorem step_settle_create_view (c : Client) (i : Nat) (body : JsVal) (o : FetchOutcome)
    (h : c.pending[i]? = some (.postShorten body)) :
    (step c (.settle i o)).view = (shortenUrlResume o (Run.start c.view)).view := by
  simp [step, h, Client.run, Request.resume]

/-- C5: `shortenUrl` on a non-empty draft url sets `loading` and issues the
create request; its continuation clears `loading` on every outcome of the
request, from whatever state the page is in by then; and in every reachable
state of the page `loading` is set as long as a create request is
outstanding. -/
theorem shortenUrl_loading_flag (s : ViewState) (o : FetchOutcome) (hurl : s.url ≠ "") :
    (shortenUrl (Run.start s)).view.loading = true ∧
      (shortenUrl (Run.start s)).fetches = [.postShorten (shortenBody s)] ∧
      (shortenUrlResume o (shortenUrl (Run.start s))).view.loading = false ∧
      (∀ r : Run, (shortenUrlResume o r).view.loading = false) ∧
      (∀ c : Client, Reachable c → 0 < createOutstanding c → c.view.loading = true) ∧
      (∀ (c : Client) (i : Nat) (body : JsVal), Reachable c →
        c.pending[i]? = some (.postShorten body) →
          c.view.loading = true ∧ (step c (.settle i o)).view.loading = false) := by
  refine ⟨?_, ?_, shortenUrlResume_loading o _, shortenUrlResume_loading o, ?_, ?_⟩
  · simp [shortenUrl, truthy_str, hurl, setLoading, setError, setShortUrl, fetch, Run.start]
  · simp [shortenUrl, truthy_str, hurl, setLoading, setError, setShortUrl, fetch, Run.start]
  · intro c hc hpos
    have hinv := busyInvariant_of_reachable c hc
    unfold BusyInvariant at hinv
    cases hl : c.view.loading
    · rw [hl] at hinv
      simp at hinv
      omega
    · rfl
  · intro c i body hc hq
    have hinv := busyInvariant_of_reachable c hc
    have hpos := createOutstanding_pos c i body hq
    unfold BusyInvariant at hinv
    refine ⟨?_, ?_⟩
    · cases hl : c.view.loading
      · rw [hl] at hinv
        simp at hinv
        omega
      · rfl
    · rw [step_settle_create_view c i body o hq]
      exact shortenUrlResume_loading o _

theorem shortenUrl_loading_flag_witness :
    (shortenUrl (Run.start { ViewState.initial with url := "https://example.com" })).view.loading
        = true ∧
      (shortenUrlResume (.response false none)
        (shortenUrl (Run.start { ViewState.initial with url := "https://example.com" }))).view.loading
        = false :=
  ⟨(shortenUrl_loading_flag { ViewState.initial with url := "https://example.com" }
      (.response false none) (by decide)).1,
    (shortenUrl_loading_flag { ViewState.initial with url := "https://example.com" }
      (.response false none) (by decide)).2.2.1⟩

/-- C9: in every reachable state of the page at most one create request is
outstanding, and one is outstanding exactly in phase `Busy`. In phase `Busy`
the submit button is disabled and a click on it leaves the page as it is: no
request, no change of the view. From phase `Idle` a click with a non-empty
draft url leads to `Busy` with one create request outstanding; when that
request settles the page is `Idle` again with none outstanding, whichever of
`Success`, `Rejected`, `Unreachable` the continuation takes. -/
theorem one_submission_in_flight (c : Client) (hc : Reachable c) :
    createOutstanding c ≤ 1 ∧
      (phase c = .Busy ↔ createOutstanding c = 1) ∧
      (phase c = .Busy → submitDisabled c.view = true ∧ step c .clickShorten = c) ∧
      (phase c = .Idle → c.view.url ≠ "" →
        phase (step c .clickShorten) = .Busy ∧ createOutstanding (step c .clickShorten) = 1 ∧
          (step c .clickShorten).pending = c.pending ++ [.postShorten (shortenBody c.view)]) ∧
      (∀ (i : Nat) (body : JsVal) (o : FetchOutcome),
        c.pending[i]? = some (.postShorten body) →
          phase c = .Busy ∧ phase (step c (.settle i o)) = .Idle ∧
            createOutstanding (step c (.settle i o)) = 0 ∧
            (settlement o = .Success →
              ∃ d, o = .response true (some d) ∧ (step c (.settle i o)).view.shortUrl = d) ∧
            (settlement o = .Rejected →
              ∃ d e, o = .response false (some d) ∧ d.getProp "error" = .ok e ∧
                (step c (.settle i o)).view.error = e.or (.str "Failed to shorten URL")) ∧
            (settlement o = .Unreachable →
              (step c (.settle i o)).view.error = .str connectErrorMessage)) := by
  have hinv := busyInvariant_of_reachable c hc
  have hinv' := hinv
  unfold BusyInvariant at hinv
  refine ⟨?_, ?_, ?_, ?_, ?_⟩
  · split at hinv <;> omega
  · cases hl : c.view.loading <;> simp [phase, hl] at hinv ⊢ <;> omega
  · intro hb
    have hl : c.view.loading = true := by
      cases hl : c.view.loading <;> simp [phase, hl] at hb ⊢
    simp [submitDisabled, step, hl]
  · intro hi hurl
    have hl : c.view.loading = false := by
      cases hl : c.view.loading <;> simp [phase, hl] at hi ⊢
    have hnext := busyInvariant_step c .clickShorten hinv'
    have hload : (step c .clickShorten).view.loading = true := by
      simp [step, submitDisabled, hl, truthy_str, hurl, Client.run, shortenUrl, fetch,
        setShortUrl, setError, setLoading, Run.start]
    unfold BusyInvariant at hnext
    rw [hload] at hnext
    refine ⟨by simp [phase, hload], by simpa using hnext, ?_⟩
    simp [step, submitDisabled, hl, truthy_str, hurl, Client.run, shortenUrl, fetch,
      setShortUrl, setError, setLoading, Run.start]
  · intro i body o hq
    have hpos := createOutstanding_pos c i body hq
    have hnext := busyInvariant_step c (.settle i o) hinv'
    have hview := step_settle_create_view c i body o hq
    have hload : (step c (.settle i o)).view.loading = false := by
      rw [hview]
      exact shortenUrlResume_loading o _
    unfold BusyInvariant at hnext
    rw [hload] at hnext
    have hs := shortenUrlResume_settlement o c.view
    refine ⟨?_, by simp [phase, hload], by simpa using hnext, ?_, ?_, ?_⟩
    · cases hl : c.view.loading
      · rw [hl] at hinv
        simp at hinv
        omega
      · simp [phase, hl]
    · rw [hview]
      exact hs.1
    · rw [hview]
      exact hs.2.1
    · rw [hview]
      exact hs.2.2

theorem one_submission_in_flight_witness :
    createOutstanding
        (runEvents Client.initial [.changeUrl "https://example.com", .clickShorten]) ≤ 1 ∧
      (phase (runEvents Client.initial [.changeUrl "https://example.com", .clickShorten])
          = .Busy →
        submitDisabled
            (runEvents Client.initial [.changeUrl "https://example.com", .clickShorten]).view
            = true ∧
          step (runEvents Client.initial [.changeUrl "https://example.com", .clickShorten])
              .clickShorten
            = runEvents Client.initial [.changeUrl "https://example.com", .clickShorten]) :=
  ⟨(one_submission_in_flight
      (runEvents Client.initial [.changeUrl "https://example.com", .clickShorten])
      ⟨[.changeUrl "https://example.com", .clickShorten], rfl⟩).1,
    (one_submission_in_flight
      (runEvents Client.initial [.changeUrl "https://example.com", .clickShorten])
      ⟨[.changeUrl "https://example.com", .clickShorten], rfl⟩).2.2.1⟩

/-! ## List refresh and analytics: `fetchUrls`, `fetchAnalytics` -/

/-- A list request that gets no response, or a body that is not JSON, leaves
the whole view state as it was and writes one line to the console. -/
theorem fetchUrlsResume_no_payload (s : ViewState) (cause : String) (ok : Bool) :
    fetchUrlsResume (.rejected cause) (Run.start s)
        = consoleError "Failed to fetch URLs:" (Run.start s) ∧
      fetchUrlsResume (.response ok none) (Run.start s)
        = consoleError "Failed to fetch URLs:" (Run.start s) ∧
      (consoleError "Failed to fetch URLs:" (Run.start s)).view = s := by
  simp [fetchUrlsResume, fetchUrlsTry, FetchOutcome.awaitJson, consoleError, Run.start]

/-- A list request answered with the payload `{urls: l}` replaces the cached
list by `l` and changes no other cell. -/
theorem fetchUrlsResume_payload (s : ViewState) (ok : Bool) (l : List JsVal) :
    (fetchUrlsResume (.response ok (some (.obj [("urls", .arr l)]))) (Run.start s)).view
      = { s with urls := .arr l } := by
  simp [fetchUrlsResume, fetchUrlsTry, FetchOutcome.awaitJson, JsVal.getProp, lookupProp,
    JsVal.or, JsVal.truthy, setUrls, Run.start]

/-- C6, evaluated where it fails: the cached list holds one record and the list
request is answered by a response that indicates failure with the payload
`{error: "Internal Server Error"}`. `fetchUrls` does not look at `response.ok`;
it stores `data.urls || []`, so the cached list becomes the empty list instead
of keeping its value, and nothing is written to the console. -/
theorem fetchUrls_failure_payload_empties_list :
    (fetchUrlsResume (.response false (some (.obj [("error", .str "Internal Server Error")])))
        (Run.start { ViewState.initial with
          urls := .arr [.obj [("short_code", .str "xy12")]] })).view.urls = .arr [] ∧
      (fetchUrlsResume (.response false (some (.obj [("error", .str "Internal Server Error")])))
        (Run.start { ViewState.initial with
          urls := .arr [.obj [("short_code", .str "xy12")]] })).console = [] ∧
      JsVal.arr [] ≠ JsVal.arr [.obj [("short_code", .str "xy12")]] := by
  refine ⟨rfl, rfl, ?_⟩
  intro h
  cases h

/-- An analytics request that gets no response, or a body that is not JSON,
leaves the whole view state as it was and writes one line to the console. -/
theorem fetchAnalyticsResume_no_payload (s : ViewState) (cause : String) (ok : Bool) :
    fetchAnalyticsResume (.rejected cause) (Run.start s)
        = consoleError "Failed to fetch analytics:" (Run.start s) ∧
      fetchAnalyticsResume (.response ok none) (Run.start s)
        = consoleError "Failed to fetch analytics:" (Run.start s) ∧
      (consoleError "Failed to fetch analytics:" (Run.start s)).view = s := by
  simp [fetchAnalyticsResume, fetchAnalyticsTry, FetchOutcome.awaitJson, consoleError,
    Run.start]

/-- An analytics request answered with a JSON payload stores that payload in
`selectedAnalytics`, whatever the `ok` flag of the response, and changes no
other cell. -/
theorem fetchAnalyticsResume_payload (s : ViewState) (ok : Bool) (data : JsVal) :
    (fetchAnalyticsResume (.response ok (some data)) (Run.start s)).view
      = { s with selectedAnalytics := data } := by
  simp [fetchAnalyticsResume, fetchAnalyticsTry, FetchOutcome.awaitJson, setSelectedAnalytics,
    Run.start]

/-- C7, evaluated where it fails: no record is shown and the analytics request
for an unknown code is answered by a response that indicates failure with the
payload `{error: "Short URL not found"}`. `fetchAnalytics` does not look at
`response.ok`; it stores the error payload in `selectedAnalytics`, so the modal
opens on it instead of staying closed. -/
theorem fetchAnalytics_failure_payload_is_displayed :
    ViewState.initial.selectedAnalytics = .null ∧
      modalShown ViewState.initial = false ∧
      (fetchAnalyticsResume (.response false (some (.obj [("error", .str "Short URL not found")])))
        (fetchAnalytics (.str "nope") (Run.start ViewState.initial))).view.selectedAnalytics
        = .obj [("error", .str "Short URL not found")] ∧
      modalShown
        (fetchAnalyticsResume
          (.response false (some (.obj [("error", .str "Short URL not found")])))
          (fetchAnalytics (.str "nope") (Run.start ViewState.initial))).view = true ∧
      JsVal.obj [("error", .str "Short URL not found")] ≠ JsVal.null := by
  refine ⟨rfl, rfl, rfl, rfl, ?_⟩
  intro h
  cases h

/-! ## Late responses -/

/-- C10: a response that arrives late overwrites what the page shows. When
`fetchAnalytics` has been started and the modal is dismissed before the request
settles, `selectedAnalytics` is `null`, and the record `r` the request then
delivers becomes the displayed record. With two list requests outstanding, the
first issued answered with `{urls: l1}` and the second with `{urls: l2}`, the
cached list ends as `l2` when the second settles last and as `l1` when the
first settles last. -/
theorem late_response_overwrites (s : ViewState) (shortCode r : JsVal) (l1 l2 : List JsVal)
    (console : List String) :
    (dismissAnalytics (fetchAnalytics shortCode (Run.start s))).view.selectedAnalytics
        = .null ∧
      (fetchAnalyticsResume (.response true (some r))
        (dismissAnalytics (fetchAnalytics shortCode (Run.start s)))).view.selectedAnalytics
        = r ∧
      (step
        (step { view := s, pending := [.getUrls, .getUrls], console := console }
          (.settle 0 (.response true (some (.obj [("urls", .arr l1)])))))
        (.settle 0 (.response true (some (.obj [("urls", .arr l2)]))))).view.urls = .arr l2 ∧
      (step
        (step { view := s, pending := [.getUrls, .getUrls], console := console }
          (.settle 1 (.response true (some (.obj [("urls", .arr l2)])))))
        (.settle 0 (.response true (some (.obj [("urls", .arr l1)]))))).view.urls = .arr l1 := by
  refine ⟨?_, ?_, ?_, ?_⟩
  · simp [dismissAnalytics, setSelectedAnalytics]
  · simp [fetchAnalyticsResume, fetchAnalyticsTry, FetchOutcome.awaitJson, setSelectedAnalytics]
  · simp [step, Client.run, Request.resume, fetchUrlsResume_payload]
  · simp [step, Client.run, Request.resume, fetchUrlsResume_payload]

end ShortenerClient
